import Mathlib

/-!
Verification of the Progressive Rollout Controller core of AI_Automated_DevOps:
the canary metric comparator and promotion decision (src/deployment/canary_analyzer.py),
the rollback sequencer (src/deployment/rollback_handler.py), the statistical
anomaly detector (src/monitoring/ai_anomaly_detector.py) and the alert manager
(src/monitoring/alert_manager.py), shallowly embedded over the rationals.

Python floats are modelled as rationals; Python dicts of metric analyses become
structures; the IsolationForest outlier model is abstracted as a score function
parameter (the decision logic downstream of the score is embedded verbatim).
-/

namespace Canary

/-- Impact level buckets returned by `_determine_impact_level`. -/
inductive Impact where
  | insignificant
  | low
  | medium
  | high
deriving DecidableEq, Repr

/-- Numeric rank of an impact level, `insignificant` lowest. -/
def Impact.rank : Impact → Nat
  | .insignificant => 0
  | .low => 1
  | .medium => 2
  | .high => 3

/-- Impact cutoffs from `config['impact_thresholds']` (defaults 20/10/5). -/
structure ImpactThresholds where
  high : ℚ
  medium : ℚ
  low : ℚ
deriving Repr

/-- Default impact thresholds from `_determine_impact_level`. -/
def defaultImpactThresholds : ImpactThresholds := ⟨20, 10, 5⟩

/-- Embeds `CanaryAnalyzer._determine_impact_level`: buckets the absolute
difference against the `high`/`medium`/`low` cutoffs. -/
def determine_impact_level (t : ImpactThresholds) (difference : ℚ) : Impact :=
  let abs_diff := |difference|
  if abs_diff > t.high then .high
  else if abs_diff > t.medium then .medium
  else if abs_diff > t.low then .low
  else .insignificant

/-- Modelled from the spec: `CanaryAnalyzer._calculate_metric_difference` is
called throughout `_analyze_performance`, `_analyze_errors` and
`_analyze_resources` but is absent from the source tree.  The spec defines it as
`differencePercent = (canary - baseline) / baseline * 100`, defined as 0 when
the baseline is 0 to avoid division faults. -/
def calculate_metric_difference (baseline canary : ℚ) : ℚ :=
  if baseline = 0 then 0 else (canary - baseline) / baseline * 100

/-- One per-metric comparison record: `difference_percentage`, `significant`
and `impact`, as built by the `_analyze_*` methods. -/
structure MetricAnalysis where
  difference_percentage : ℚ
  significant : Bool
  impact : Impact
deriving Repr

/-- Builds one per-metric analysis entry exactly as each `_analyze_*` method
does: difference via `calculate_metric_difference`, significance by strict
comparison of the absolute difference against the metric's threshold, impact
via `determine_impact_level`. -/
def analyzeMetric (t : ImpactThresholds) (threshold baseline canary : ℚ) :
    MetricAnalysis :=
  let d := calculate_metric_difference baseline canary
  ⟨d, |d| > threshold, determine_impact_level t d⟩

/-- Per-metric significance thresholds from `config['thresholds']`. -/
structure Thresholds where
  latency : ℚ
  throughput : ℚ
  success_rate : ℚ
  error_rate : ℚ
  cpu : ℚ
  memory : ℚ
deriving Repr

/-- Performance metrics of one deployment (`metrics['performance']`). -/
structure PerfMetrics where
  latency : ℚ
  throughput : ℚ
  success_rate : ℚ
deriving Repr

/-- Resource metrics of one deployment (`metrics['resources']`). -/
structure ResourceMetrics where
  cpu_usage : ℚ
  memory_usage : ℚ
deriving Repr

/-- Result of `_analyze_performance`: latency, throughput and success-rate
comparisons. -/
structure PerformanceAnalysis where
  latency : MetricAnalysis
  throughput : MetricAnalysis
  success_rate : MetricAnalysis
deriving Repr

/-- Result of `_analyze_errors`, error-rate comparison.  The source also emits
an error-type set diff through `_analyze_error_types`, a helper absent from the
source tree; no claim depends on it and it carries no difference percentage, so
it is omitted from the embedding. -/
structure ErrorAnalysis where
  error_rate : MetricAnalysis
deriving Repr

/-- Result of `_analyze_resources`: cpu and memory comparisons. -/
structure ResourceAnalysis where
  cpu : MetricAnalysis
  memory : MetricAnalysis
deriving Repr

/-- Embeds `CanaryAnalyzer._analyze_performance`. -/
def analyze_performance (t : ImpactThresholds) (th : Thresholds)
    (baseline canary : PerfMetrics) : PerformanceAnalysis :=
  ⟨analyzeMetric t th.latency baseline.latency canary.latency,
   analyzeMetric t th.throughput baseline.throughput canary.throughput,
   analyzeMetric t th.success_rate baseline.success_rate canary.success_rate⟩

/-- Embeds the error-rate part of `CanaryAnalyzer._analyze_errors`. -/
def analyze_errors (t : ImpactThresholds) (th : Thresholds)
    (baselineRate canaryRate : ℚ) : ErrorAnalysis :=
  ⟨analyzeMetric t th.error_rate baselineRate canaryRate⟩

/-- Embeds `CanaryAnalyzer._analyze_resources`. -/
def analyze_resources (t : ImpactThresholds) (th : Thresholds)
    (baseline canary : ResourceMetrics) : ResourceAnalysis :=
  ⟨analyzeMetric t th.cpu baseline.cpu_usage canary.cpu_usage,
   analyzeMetric t th.memory baseline.memory_usage canary.memory_usage⟩

end Canary

namespace Canary

/-- Confidence weights from `config['confidence_weights']`
(defaults 0.4 / 0.3 / 0.2 / 0.1). -/
structure Weights where
  performance_score : ℚ
  error_score : ℚ
  resource_score : ℚ
  user_impact_score : ℚ
deriving Repr

/-- Default confidence weights from `_calculate_decision_confidence`. -/
def defaultWeights : Weights := ⟨4/10, 3/10, 2/10, 1/10⟩

/-- The four per-category scores assembled by `_make_promotion_decision` as
`decision_metrics`. -/
structure DecisionMetrics where
  performance_score : ℚ
  error_score : ℚ
  resource_score : ℚ
  user_impact_score : ℚ
deriving Repr

/-- Clamp to the unit interval, Python `min(1.0, max(0.0, x))`. -/
def clamp01 (x : ℚ) : ℚ := min 1 (max 0 x)

/-- Embeds `CanaryAnalyzer._calculate_decision_confidence`: the weighted sum of
the four category scores in dict insertion order, clamped to [0,1]. -/
def calculate_decision_confidence (w : Weights) (m : DecisionMetrics) : ℚ :=
  clamp01 (m.performance_score * w.performance_score
    + m.error_score * w.error_score
    + m.resource_score * w.resource_score
    + m.user_impact_score * w.user_impact_score)

/-- Modelled from the spec: penalty of the worst significant impact in a
category, `insignificant→0, low→0.25, medium→0.5, high→1.0`; the category score
helpers carrying it are absent from the source tree. -/
def impactPenalty : Impact → ℚ
  | .insignificant => 0
  | .low => 1/4
  | .medium => 1/2
  | .high => 1

/-- Modelled from the spec: a category score is 1.0 minus the penalty of the
given impact, clamped to [0,1]. -/
def categoryScoreOfImpact (i : Impact) : ℚ := clamp01 (1 - impactPenalty i)

/-- Worst impact among the metrics of a category that are flagged
`significant`; `insignificant` when none is. -/
def worstSignificantImpact (ms : List MetricAnalysis) : Impact :=
  ms.foldl
    (fun acc m =>
      if m.significant && acc.rank < m.impact.rank then m.impact else acc)
    .insignificant

/-- Modelled from the spec: `CanaryAnalyzer._calculate_performance_score` is
called by `_make_promotion_decision` but absent from the source tree; per the
spec it is 1.0 minus the penalty of the worst significant impact among the
category's metrics, clamped to [0,1]. -/
def calculate_performance_score (pa : PerformanceAnalysis) : ℚ :=
  categoryScoreOfImpact
    (worstSignificantImpact [pa.latency, pa.throughput, pa.success_rate])

/-- Modelled from the spec: `CanaryAnalyzer._calculate_error_score`, absent
from the source tree, same category-score shape. -/
def calculate_error_score (ea : ErrorAnalysis) : ℚ :=
  categoryScoreOfImpact (worstSignificantImpact [ea.error_rate])

/-- Modelled from the spec: `CanaryAnalyzer._calculate_resource_score`, absent
from the source tree, same category-score shape. -/
def calculate_resource_score (ra : ResourceAnalysis) : ℚ :=
  categoryScoreOfImpact (worstSignificantImpact [ra.cpu, ra.memory])

/-- Modelled from the spec: `CanaryAnalyzer._analyze_user_impact` and
`_calculate_user_impact_score` are both absent from the source tree; the user
impact category score is modelled as the same category-score shape over the
category's metric analyses. -/
def calculate_user_impact_score (ua : List MetricAnalysis) : ℚ :=
  categoryScoreOfImpact (worstSignificantImpact ua)

/-- Modelled from the spec: `CanaryAnalyzer._calculate_overall_score` is called
by `_make_promotion_decision` but absent from the source tree; per the spec the
overall score is the same weighted computation as the confidence: the weighted
sum of category scores, clamped to [0,1] (weights need not sum to 1). -/
def calculate_overall_score (w : Weights) (m : DecisionMetrics) : ℚ :=
  clamp01 (m.performance_score * w.performance_score
    + m.error_score * w.error_score
    + m.resource_score * w.resource_score
    + m.user_impact_score * w.user_impact_score)

/-- The decision record returned by `_make_promotion_decision`. -/
structure Decision where
  promote : Bool
  overall_score : ℚ
  metrics_scores : DecisionMetrics
  confidence : ℚ
deriving Repr

/-- Embeds `CanaryAnalyzer._make_promotion_decision`: assembles the four
category scores, computes the overall score, and promotes exactly when the
overall score reaches `config['promotion_threshold']`. -/
def make_promotion_decision (w : Weights) (promotion_threshold : ℚ)
    (pa : PerformanceAnalysis) (ea : ErrorAnalysis) (ra : ResourceAnalysis)
    (ua : List MetricAnalysis) : Decision :=
  let decision_metrics : DecisionMetrics :=
    ⟨calculate_performance_score pa, calculate_error_score ea,
     calculate_resource_score ra, calculate_user_impact_score ua⟩
  let overall_score := calculate_overall_score w decision_metrics
  let should_promote : Bool := overall_score ≥ promotion_threshold
  ⟨should_promote, overall_score, decision_metrics,
   calculate_decision_confidence w decision_metrics⟩

end Canary

namespace Canary

/-- `clamp01` never goes below 0. -/
lemma clamp01_nonneg (x : ℚ) : 0 ≤ clamp01 x :=
  le_min (by norm_num) (le_max_left 0 x)

/-- `clamp01` never exceeds 1. -/
lemma clamp01_le_one (x : ℚ) : clamp01 x ≤ 1 := min_le_left 1 _

/-- A higher-ranked impact never carries a smaller penalty. -/
lemma impactPenalty_mono {i i' : Impact} (h : i.rank ≤ i'.rank) :
    impactPenalty i ≤ impactPenalty i' := by
  cases i <;> cases i' <;>
    simp_all [Impact.rank, impactPenalty] <;> norm_num

/-- The per-category score is antitone in the impact level. -/
lemma categoryScoreOfImpact_antitone {i i' : Impact} (h : i.rank ≤ i'.rank) :
    categoryScoreOfImpact i' ≤ categoryScoreOfImpact i := by
  have hp := impactPenalty_mono h
  unfold categoryScoreOfImpact clamp01
  exact min_le_min le_rfl (max_le_max le_rfl (by linarith))

/-- With nonnegative weights, the overall score is monotone in each category
score. -/
lemma calculate_overall_score_mono (w : Weights)
    (h1 : 0 ≤ w.performance_score) (h2 : 0 ≤ w.error_score)
    (h3 : 0 ≤ w.resource_score) (h4 : 0 ≤ w.user_impact_score)
    (m m' : DecisionMetrics)
    (hp : m'.performance_score ≤ m.performance_score)
    (he : m'.error_score ≤ m.error_score)
    (hr : m'.resource_score ≤ m.resource_score)
    (hu : m'.user_impact_score ≤ m.user_impact_score) :
    calculate_overall_score w m' ≤ calculate_overall_score w m := by
  unfold calculate_overall_score clamp01
  refine min_le_min le_rfl (max_le_max le_rfl ?_)
  have := mul_le_mul_of_nonneg_right hp h1
  have := mul_le_mul_of_nonneg_right he h2
  have := mul_le_mul_of_nonneg_right hr h3
  have := mul_le_mul_of_nonneg_right hu h4
  linarith

end Canary

/-- C8: the overall decision score and the decision confidence both equal the
weighted sum of the four per-category scores, clamped to [0,1]; for any
configured weights (no hypothesis that they sum to 1) both land in [0,1]. -/
theorem overall_score_and_confidence_are_weighted_sum (w : Canary.Weights)
    (pt : ℚ) (pa : Canary.PerformanceAnalysis) (ea : Canary.ErrorAnalysis)
    (ra : Canary.ResourceAnalysis) (ua : List Canary.MetricAnalysis) :
    ((Canary.make_promotion_decision w pt pa ea ra ua).overall_score
      = Canary.clamp01
          (Canary.calculate_performance_score pa * w.performance_score
            + Canary.calculate_error_score ea * w.error_score
            + Canary.calculate_resource_score ra * w.resource_score
            + Canary.calculate_user_impact_score ua * w.user_impact_score))
    ∧ ((Canary.make_promotion_decision w pt pa ea ra ua).confidence
      = (Canary.make_promotion_decision w pt pa ea ra ua).overall_score)
    ∧ (0 ≤ (Canary.make_promotion_decision w pt pa ea ra ua).overall_score)
    ∧ ((Canary.make_promotion_decision w pt pa ea ra ua).overall_score ≤ 1)
    ∧ (0 ≤ (Canary.make_promotion_decision w pt pa ea ra ua).confidence)
    ∧ ((Canary.make_promotion_decision w pt pa ea ra ua).confidence ≤ 1) :=
  ⟨rfl, rfl, Canary.clamp01_nonneg _, Canary.clamp01_le_one _,
   Canary.clamp01_nonneg _, Canary.clamp01_le_one _⟩

/-- C5: with nonnegative weights, raising a single category's worst significant
impact (by rank, insignificant → low → medium → high) while holding the other
three category scores fixed never increases the overall score; stated for each
of the four category positions. -/
theorem overall_score_antitone_in_category_impact (w : Canary.Weights)
    (h1 : 0 ≤ w.performance_score) (h2 : 0 ≤ w.error_score)
    (h3 : 0 ≤ w.resource_score) (h4 : 0 ≤ w.user_impact_score)
    (i i' : Canary.Impact) (h : i.rank ≤ i'.rank) (a b c : ℚ) :
    (Canary.calculate_overall_score w ⟨Canary.categoryScoreOfImpact i', a, b, c⟩
      ≤ Canary.calculate_overall_score w ⟨Canary.categoryScoreOfImpact i, a, b, c⟩)
    ∧ (Canary.calculate_overall_score w ⟨a, Canary.categoryScoreOfImpact i', b, c⟩
      ≤ Canary.calculate_overall_score w ⟨a, Canary.categoryScoreOfImpact i, b, c⟩)
    ∧ (Canary.calculate_overall_score w ⟨a, b, Canary.categoryScoreOfImpact i', c⟩
      ≤ Canary.calculate_overall_score w ⟨a, b, Canary.categoryScoreOfImpact i, c⟩)
    ∧ (Canary.calculate_overall_score w ⟨a, b, c, Canary.categoryScoreOfImpact i'⟩
      ≤ Canary.calculate_overall_score w ⟨a, b, c, Canary.categoryScoreOfImpact i⟩) := by
  have hs := Canary.categoryScoreOfImpact_antitone h
  exact ⟨Canary.calculate_overall_score_mono w h1 h2 h3 h4 _ _ hs le_rfl le_rfl le_rfl,
    Canary.calculate_overall_score_mono w h1 h2 h3 h4 _ _ le_rfl hs le_rfl le_rfl,
    Canary.calculate_overall_score_mono w h1 h2 h3 h4 _ _ le_rfl le_rfl hs le_rfl,
    Canary.calculate_overall_score_mono w h1 h2 h3 h4 _ _ le_rfl le_rfl le_rfl hs⟩

/-- C5 witness: the monotonicity theorem applied at the default weights,
raising the impact from `low` to `medium` with the other scores at 1. -/
theorem overall_score_antitone_in_category_impact_witness :
    (0 ≤ Canary.defaultWeights.performance_score)
    ∧ (0 ≤ Canary.defaultWeights.error_score)
    ∧ (0 ≤ Canary.defaultWeights.resource_score)
    ∧ (0 ≤ Canary.defaultWeights.user_impact_score)
    ∧ (Canary.Impact.low.rank ≤ Canary.Impact.medium.rank)
    ∧ (Canary.calculate_overall_score Canary.defaultWeights
        ⟨Canary.categoryScoreOfImpact .medium, 1, 1, 1⟩
      ≤ Canary.calculate_overall_score Canary.defaultWeights
        ⟨Canary.categoryScoreOfImpact .low, 1, 1, 1⟩) :=
  ⟨by norm_num [Canary.defaultWeights], by norm_num [Canary.defaultWeights],
   by norm_num [Canary.defaultWeights], by norm_num [Canary.defaultWeights],
   by decide,
   (overall_score_antitone_in_category_impact Canary.defaultWeights
      (by norm_num [Canary.defaultWeights]) (by norm_num [Canary.defaultWeights])
      (by norm_num [Canary.defaultWeights]) (by norm_num [Canary.defaultWeights])
      .low .medium (by decide) 1 1 1).1⟩

namespace Rollback

/-- Outcome of one call to `_execute_rollback_step`: either a result record
whose `success` field is read by the loop, or a raised exception, which the
loop catches and records as a failed step. -/
inductive Outcome where
  | ok (success : Bool)
  | exc (msg : String)
deriving DecidableEq, Repr

/-- The step loop of `RollbackHandler._execute_rollback`: runs steps in order,
recording each step's `success`; stops after the first step whose result is not
a success, and a raised exception is recorded as a failed step and stops the
loop the same way. Returns the recorded `success` flags, one per executed
step. -/
def runSteps {α : Type} (exec : α → Outcome) : List α → List Bool
  | [] => []
  | s :: rest =>
    match exec s with
    | .ok true => true :: runSteps exec rest
    | .ok false => [false]
    | .exc _ => [false]

/-- The summary dict returned by `_execute_rollback`:
`steps_executed = len(results)` and `success = all(r['success'])`. -/
structure RollbackResult where
  steps_executed : Nat
  success : Bool
deriving DecidableEq, Repr

/-- Embeds `RollbackHandler._execute_rollback`. -/
def execute_rollback {α : Type} (exec : α → Outcome) (steps : List α) :
    RollbackResult :=
  let results := runSteps exec steps
  ⟨results.length, results.all (fun b => b)⟩

/-- Modelled from the spec: `RollbackHandler._execute_rollback_step` is called
by `_execute_rollback` but absent from the source tree.  Per the spec each
executed step is independently verified (a post-condition check) before the
next step runs, verification failure being treated identically to execution
failure: the step's result is a success only when both the action and its
verification succeed. -/
def execute_rollback_step {α : Type} (act : α → Outcome) (verify : α → Bool)
    (s : α) : Outcome :=
  match act s with
  | .exc m => .exc m
  | .ok false => .ok false
  | .ok true => .ok (verify s)

/-- If every step before `k` succeeds and step `k` does not, the loop records
exactly the successes of the prefix followed by one failure, independently of
the steps after `k`. -/
lemma runSteps_halts {α : Type} (exec : α → Outcome) (pre : List α) (k : α)
    (post : List α) (hpre : ∀ s ∈ pre, exec s = .ok true)
    (hk : exec k ≠ .ok true) :
    runSteps exec (pre ++ k :: post) = pre.map (fun _ => true) ++ [false] := by
  induction pre with
  | nil =>
      simp only [List.nil_append, List.map_nil]
      cases hek : exec k with
      | ok b =>
          cases b with
          | true => exact absurd hek hk
          | false => simp [runSteps, hek]
      | exc m => simp [runSteps, hek]
  | cons s rest ih =>
      have hs : exec s = .ok true := hpre s (List.mem_cons_self s rest)
      have ih' := ih (fun x hx => hpre x (List.mem_cons_of_mem s hx))
      simp [runSteps, hs, ih']

end Rollback

/-- C2: when the steps before `k` succeed and step `k` fails — either by
returning `success = false` or by raising — the rollback executes no step after
`k` (the result is the same whatever follows `k`), reports
`steps_executed` equal to the position of `k`, and reports `success = false`. -/
theorem rollback_halts_on_step_failure {α : Type} (exec : α → Rollback.Outcome)
    (pre : List α) (k : α) (post : List α)
    (hpre : ∀ s ∈ pre, exec s = .ok true)
    (hk : exec k = .ok false ∨ ∃ msg, exec k = .exc msg) :
    (Rollback.execute_rollback exec (pre ++ k :: post)
        = Rollback.execute_rollback exec (pre ++ [k]))
    ∧ ((Rollback.execute_rollback exec (pre ++ k :: post)).steps_executed
        = pre.length + 1)
    ∧ ((Rollback.execute_rollback exec (pre ++ k :: post)).success = false) := by
  have hk' : exec k ≠ .ok true := by
    rcases hk with h | ⟨msg, h⟩ <;> simp [h]
  have h1 := Rollback.runSteps_halts exec pre k post hpre hk'
  have h2 := Rollback.runSteps_halts exec pre k [] hpre hk'
  refine ⟨?_, ?_, ?_⟩
  · simp [Rollback.execute_rollback, h1, h2]
  · simp [Rollback.execute_rollback, h1]
  · simp [Rollback.execute_rollback, h1]

/-- C2 witness: three steps of which the second fails — `steps_executed = 2`,
`success = false`, and the third step is never attempted. -/
theorem rollback_halts_on_step_failure_witness :
    (∀ s ∈ [1],
      (fun n => if n = 2 then Rollback.Outcome.ok false
                else Rollback.Outcome.ok true) s = Rollback.Outcome.ok true)
    ∧ ((fun n => if n = 2 then Rollback.Outcome.ok false
                else Rollback.Outcome.ok true) 2 = Rollback.Outcome.ok false
        ∨ ∃ msg, (fun n => if n = 2 then Rollback.Outcome.ok false
                else Rollback.Outcome.ok true) 2 = Rollback.Outcome.exc msg)
    ∧ ((Rollback.execute_rollback
          (fun n => if n = 2 then Rollback.Outcome.ok false
                    else Rollback.Outcome.ok true)
          ([1] ++ 2 :: [3])).steps_executed = 2)
    ∧ ((Rollback.execute_rollback
          (fun n => if n = 2 then Rollback.Outcome.ok false
                    else Rollback.Outcome.ok true)
          ([1] ++ 2 :: [3])).success = false) := by
  have h := rollback_halts_on_step_failure
    (fun n => if n = 2 then Rollback.Outcome.ok false
              else Rollback.Outcome.ok true)
    [1] 2 [3] (by decide) (Or.inl (by decide))
  exact ⟨by decide, Or.inl (by decide), h.2.1, h.2.2⟩

/-- C9: with the spec-modelled per-step executor — a step succeeds only when
both its action and its post-condition verification succeed — a step whose
verification fails halts the sequence exactly as an execution failure does:
no later step runs, `steps_executed` is the failing step's position, and the
rollback reports `success = false`. -/
theorem rollback_verification_failure_halts {α : Type}
    (act : α → Rollback.Outcome) (verify : α → Bool)
    (pre : List α) (k : α) (post : List α)
    (hpre : ∀ s ∈ pre, Rollback.execute_rollback_step act verify s
        = Rollback.Outcome.ok true)
    (hact : act k = Rollback.Outcome.ok true) (hver : verify k = false) :
    (Rollback.execute_rollback (Rollback.execute_rollback_step act verify)
        (pre ++ k :: post)
      = Rollback.execute_rollback (Rollback.execute_rollback_step act verify)
        (pre ++ [k]))
    ∧ ((Rollback.execute_rollback (Rollback.execute_rollback_step act verify)
        (pre ++ k :: post)).steps_executed = pre.length + 1)
    ∧ ((Rollback.execute_rollback (Rollback.execute_rollback_step act verify)
        (pre ++ k :: post)).success = false) := by
  have hk : Rollback.execute_rollback_step act verify k
      = Rollback.Outcome.ok false := by
    simp [Rollback.execute_rollback_step, hact, hver]
  have hk' : Rollback.execute_rollback_step act verify k
      ≠ Rollback.Outcome.ok true := by simp [hk]
  have h1 := Rollback.runSteps_halts
    (Rollback.execute_rollback_step act verify) pre k post hpre hk'
  have h2 := Rollback.runSteps_halts
    (Rollback.execute_rollback_step act verify) pre k [] hpre hk'
  refine ⟨?_, ?_, ?_⟩
  · simp [Rollback.execute_rollback, h1, h2]
  · simp [Rollback.execute_rollback, h1]
  · simp [Rollback.execute_rollback, h1]

/-- C9 witness: rollback step 2 of 3 fails verification —
`steps_executed = 2`, `success = false`, step 3 never attempted. -/
theorem rollback_verification_failure_halts_witness :
    (∀ s ∈ [1],
      Rollback.execute_rollback_step (fun _ => Rollback.Outcome.ok true)
        (fun n => !(n = 2 : Bool)) s = Rollback.Outcome.ok true)
    ∧ ((fun _ => Rollback.Outcome.ok true) 2 = Rollback.Outcome.ok true)
    ∧ ((fun n => !(n = 2 : Bool)) 2 = false)
    ∧ ((Rollback.execute_rollback
          (Rollback.execute_rollback_step (fun _ => Rollback.Outcome.ok true)
            (fun n => !(n = 2 : Bool)))
          ([1] ++ 2 :: [3])).steps_executed = 2)
    ∧ ((Rollback.execute_rollback
          (Rollback.execute_rollback_step (fun _ => Rollback.Outcome.ok true)
            (fun n => !(n = 2 : Bool)))
          ([1] ++ 2 :: [3])).success = false) := by
  have h := rollback_verification_failure_halts
    (fun _ => Rollback.Outcome.ok true) (fun n => !(n = 2 : Bool))
    [1] 2 [3] (by decide) (by decide) (by decide)
  exact ⟨by decide, by decide, by decide, h.2.1, h.2.2⟩

namespace Monitoring

/-- Anomaly severity levels shared by `AIAnomalyDetector` and `AlertManager`. -/
inductive Severity where
  | low
  | medium
  | high
  | critical
deriving DecidableEq, Repr

/-- The `severity_levels` numeric ordering used by
`AlertManager._should_alert`: critical 4, high 3, medium 2, low 1. -/
def Severity.rank : Severity → Nat
  | .low => 1
  | .medium => 2
  | .high => 3
  | .critical => 4

end Monitoring

namespace Detector

/-- Configuration of `AIAnomalyDetector`.  Time is measured in days, matching
`timedelta(days=self.config['training_period_days'])`. -/
structure Config where
  anomaly_threshold : ℚ
  training_period_days : ℚ
  minimum_datapoints : Nat
deriving Repr

/-- One history entry: `{'timestamp': ..., 'value': ...}`. -/
structure DataPoint where
  timestamp : ℚ
  value : ℚ
deriving DecidableEq, Repr

/-- An anomaly record as returned by `_check_metric_anomaly` (the timestamp
string and suggested actions carry no logic and are omitted). -/
structure Anomaly where
  metric : String
  current_value : ℚ
  severity : Monitoring.Severity
  confidence : ℚ
deriving DecidableEq, Repr

/-- Embeds `AIAnomalyDetector._calculate_severity`: buckets the absolute score
at 0.8 / 0.6 / 0.4. -/
def calculate_severity (anomaly_score : ℚ) : Monitoring.Severity :=
  if |anomaly_score| > 8/10 then .critical
  else if |anomaly_score| > 6/10 then .high
  else if |anomaly_score| > 4/10 then .medium
  else .low

/-- Embeds `AIAnomalyDetector._calculate_confidence`:
`min(abs(score) * 100, 99.9)`. -/
def calculate_confidence (anomaly_score : ℚ) : ℚ :=
  min (|anomaly_score| * 100) (999/10)

/-- Embeds `AIAnomalyDetector._check_metric_anomaly` with the IsolationForest
abstracted as a deterministic score function of the window's historical values
and the current value (the model is refit on the window at every call with a
fixed random seed, so its score is such a function).  Flags an anomaly exactly
when the score is below `-anomaly_threshold`. -/
def check_metric_anomaly (cfg : Config) (score : List ℚ → ℚ → ℚ)
    (window : List DataPoint) (metric_name : String) (current_value : ℚ) :
    Option Anomaly :=
  if score (window.map (fun p => p.value)) current_value
      < -cfg.anomaly_threshold then
    some ⟨metric_name, current_value,
      calculate_severity (score (window.map (fun p => p.value)) current_value),
      calculate_confidence (score (window.map (fun p => p.value)) current_value)⟩
  else none

/-- Detector state threaded through `detect_anomalies`: the per-metric history
dict and the anomalies accumulated so far. -/
structure DetectState where
  history : String → List DataPoint
  anomalies : List Anomaly

/-- The stale-sample eviction of the `detect_anomalies` loop: keeps the points
strictly newer than `now - training_period_days`. -/
def evictWindow (cfg : Config) (now : ℚ) (pts : List DataPoint) :
    List DataPoint :=
  pts.filter (fun p => now - cfg.training_period_days < p.timestamp)

/-- One iteration of the `detect_anomalies` loop: appends the sample to the
metric's window, evicts stale points, stores the window back into the history
dict, and — only when the window holds at least `minimum_datapoints` points —
scores the value and possibly records an anomaly. -/
def processMetric (cfg : Config) (score : List ℚ → ℚ → ℚ) (now : ℚ)
    (st : DetectState) (mv : String × ℚ) : DetectState :=
  { history := fun n =>
      if n = mv.1 then evictWindow cfg now (st.history mv.1 ++ [⟨now, mv.2⟩])
      else st.history n,
    anomalies :=
      if cfg.minimum_datapoints
          ≤ (evictWindow cfg now (st.history mv.1 ++ [⟨now, mv.2⟩])).length then
        match check_metric_anomaly cfg score
            (evictWindow cfg now (st.history mv.1 ++ [⟨now, mv.2⟩]))
            mv.1 mv.2 with
        | some a => st.anomalies ++ [a]
        | none => st.anomalies
      else st.anomalies }

/-- Embeds `AIAnomalyDetector.detect_anomalies`: folds the loop body over the
observed metrics (a Python dict iterated in insertion order), starting from the
current history with no anomalies. -/
def detect_anomalies (cfg : Config) (score : List ℚ → ℚ → ℚ) (now : ℚ)
    (history : String → List DataPoint) (metrics : List (String × ℚ)) :
    DetectState :=
  metrics.foldl (processMetric cfg score now) ⟨history, []⟩

/-- An anomaly returned by `check_metric_anomaly` carries the checked metric's
name. -/
lemma check_metric_anomaly_metric {cfg score window name value a}
    (h : check_metric_anomaly cfg score window name value = some a) :
    a.metric = name := by
  unfold check_metric_anomaly at h
  split at h
  · cases h
    rfl
  · cases h

/-- Any anomaly present after one loop iteration was either already present or
names the processed metric. -/
lemma processMetric_anomaly_mem {cfg score now st mv a}
    (h : a ∈ (processMetric cfg score now st mv).anomalies) :
    a ∈ st.anomalies ∨ a.metric = mv.1 := by
  unfold processMetric at h
  dsimp only at h
  split at h
  · split at h
    next b heq =>
      simp only [List.mem_append, List.mem_singleton] at h
      rcases h with h | h
      · exact Or.inl h
      · refine Or.inr ?_
        rw [h]
        exact check_metric_anomaly_metric heq
    next => exact Or.inl h
  · exact Or.inl h

/-- One loop iteration for a different metric leaves a metric's window
unchanged. -/
lemma processMetric_history_other {cfg score now st mv} (name : String)
    (h : mv.1 ≠ name) :
    (processMetric cfg score now st mv).history name = st.history name := by
  unfold processMetric
  dsimp only
  rw [if_neg (fun hn : name = mv.1 => h hn.symm)]

/-- Folding over metrics none of which is `name` leaves `name`'s window
unchanged. -/
lemma foldl_history_absent (cfg : Config) (score : List ℚ → ℚ → ℚ) (now : ℚ)
    (metrics : List (String × ℚ)) (st : DetectState) (name : String)
    (h : name ∉ metrics.map Prod.fst) :
    (metrics.foldl (processMetric cfg score now) st).history name
      = st.history name := by
  induction metrics generalizing st with
  | nil => rfl
  | cons mv rest ih =>
      simp only [List.map_cons, List.mem_cons] at h
      push_neg at h
      rw [List.foldl_cons, ih _ h.2,
        processMetric_history_other name (fun he => h.1 he.symm)]

/-- Folding over metrics none of which is `name` adds no anomaly named
`name`. -/
lemma foldl_no_anomaly_absent (cfg : Config) (score : List ℚ → ℚ → ℚ) (now : ℚ)
    (metrics : List (String × ℚ)) (st : DetectState) (name : String)
    (h : name ∉ metrics.map Prod.fst)
    (hst : ∀ a ∈ st.anomalies, a.metric ≠ name) :
    ∀ a ∈ (metrics.foldl (processMetric cfg score now) st).anomalies,
      a.metric ≠ name := by
  induction metrics generalizing st with
  | nil => exact hst
  | cons mv rest ih =>
      simp only [List.map_cons, List.mem_cons] at h
      push_neg at h
      rw [List.foldl_cons]
      refine ih _ h.2 ?_
      intro a ha
      rcases processMetric_anomaly_mem ha with ha' | ha'
      · exact hst a ha'
      · exact fun he => h.1 (he.symm.trans ha')

/-- Core induction for insufficient data: if the window that `name`'s
observation would produce (append then evict) is shorter than
`minimum_datapoints`, the fold adds no anomaly named `name`. -/
lemma foldl_no_anomaly_short_window (cfg : Config) (score : List ℚ → ℚ → ℚ)
    (now : ℚ) (metrics : List (String × ℚ)) (st : DetectState) (name : String)
    (value : ℚ) (hmem : (name, value) ∈ metrics)
    (hnodup : (metrics.map Prod.fst).Nodup)
    (hshort : (evictWindow cfg now (st.history name ++ [⟨now, value⟩])).length
      < cfg.minimum_datapoints)
    (hst : ∀ a ∈ st.anomalies, a.metric ≠ name) :
    ∀ a ∈ (metrics.foldl (processMetric cfg score now) st).anomalies,
      a.metric ≠ name := by
  induction metrics generalizing st with
  | nil => cases hmem
  | cons mv rest ih =>
      rw [List.foldl_cons]
      rcases List.mem_cons.mp hmem with hhead | htail
      · -- the head is the observation for `name`
        cases hhead.symm
        have hnotin : name ∉ rest.map Prod.fst := (List.nodup_cons.mp hnodup).1
        refine foldl_no_anomaly_absent cfg score now rest _ name hnotin ?_
        have hanom : (processMetric cfg score now st (name, value)).anomalies
            = st.anomalies := by
          unfold processMetric
          dsimp only
          rw [if_neg (Nat.not_le.mpr hshort)]
        rw [hanom]
        exact hst
      · -- the observation for `name` sits in the tail
        have hne : mv.1 ≠ name := by
          intro he
          exact (List.nodup_cons.mp hnodup).1
            (he ▸ (List.mem_map.mpr ⟨(name, value), htail, rfl⟩))
        refine ih _ htail (List.nodup_cons.mp hnodup).2 ?_ ?_
        · rw [processMetric_history_other name hne]
          exact hshort
        · intro a ha
          rcases processMetric_anomaly_mem ha with ha' | ha'
          · exact hst a ha'
          · exact fun he => hne (ha'.symm.trans he)

end Detector

/-- C3: when the window a metric's observation produces (after appending the
new sample and evicting stale samples) holds fewer than `minimum_datapoints`
samples, `detect_anomalies` returns no anomaly for that metric, whatever the
observed value and score; the embedding is a total function, so no fault is
raised. -/
theorem detector_insufficient_data_no_anomaly (cfg : Detector.Config)
    (score : List ℚ → ℚ → ℚ) (now : ℚ)
    (history : String → List Detector.DataPoint)
    (metrics : List (String × ℚ)) (name : String) (value : ℚ)
    (hmem : (name, value) ∈ metrics)
    (hnodup : (metrics.map Prod.fst).Nodup)
    (hshort : (Detector.evictWindow cfg now
        (history name ++ [⟨now, value⟩])).length < cfg.minimum_datapoints) :
    ∀ a ∈ (Detector.detect_anomalies cfg score now history metrics).anomalies,
      a.metric ≠ name :=
  Detector.foldl_no_anomaly_short_window cfg score now metrics ⟨history, []⟩
    name value hmem hnodup hshort (by intro a ha; cases ha)

/-- C3 witness: a first observation of a metric (window of size 1, minimum 3)
yields no anomaly even under a score far below the threshold. -/
theorem detector_insufficient_data_no_anomaly_witness :
    ((("cpu", (95 : ℚ)) ∈ [("cpu", (95 : ℚ))])
    ∧ (([("cpu", (95 : ℚ))].map Prod.fst).Nodup)
    ∧ ((Detector.evictWindow ⟨1/2, 1, 3⟩ 0
        ((fun _ => ([] : List Detector.DataPoint)) "cpu"
          ++ [⟨0, 95⟩])).length < 3))
    ∧ (∀ a ∈ (Detector.detect_anomalies ⟨1/2, 1, 3⟩ (fun _ _ => -1) 0
        (fun _ => ([] : List Detector.DataPoint))
        [("cpu", 95)]).anomalies, a.metric ≠ "cpu") :=
  ⟨⟨by decide, by decide,
    by norm_num [Detector.evictWindow, List.filter]⟩,
   detector_insufficient_data_no_anomaly ⟨1/2, 1, 3⟩ (fun _ _ => -1) 0
     (fun _ => ([] : List Detector.DataPoint)) [("cpu", 95)] "cpu" 95
     (by decide) (by decide)
     (by norm_num [Detector.evictWindow, List.filter])⟩

namespace Detector

/-- Every point kept by the eviction filter is strictly newer than the
cutoff. -/
lemma evictWindow_fresh {cfg now pts} :
    ∀ p ∈ evictWindow cfg now pts,
      now - cfg.training_period_days < p.timestamp := by
  intro p hp
  have := List.of_mem_filter hp
  exact of_decide_eq_true this

/-- One loop iteration stores the evicted window back under the processed
metric's name. -/
lemma processMetric_history_self {cfg score now st mv} :
    (processMetric cfg score now st mv).history mv.1
      = evictWindow cfg now (st.history mv.1 ++ [⟨now, mv.2⟩]) := by
  unfold processMetric
  dsimp only
  rw [if_pos rfl]

/-- After the fold, the window of any metric observed in the call holds only
points strictly newer than the cutoff. -/
lemma foldl_history_fresh (cfg : Config) (score : List ℚ → ℚ → ℚ) (now : ℚ)
    (metrics : List (String × ℚ)) (st : DetectState) (name : String)
    (value : ℚ) (hmem : (name, value) ∈ metrics)
    (hnodup : (metrics.map Prod.fst).Nodup) :
    ∀ p ∈ (metrics.foldl (processMetric cfg score now) st).history name,
      now - cfg.training_period_days < p.timestamp := by
  induction metrics generalizing st with
  | nil => cases hmem
  | cons mv rest ih =>
      rw [List.foldl_cons]
      rcases List.mem_cons.mp hmem with hhead | htail
      · cases hhead.symm
        have hnotin : name ∉ rest.map Prod.fst := (List.nodup_cons.mp hnodup).1
        rw [foldl_history_absent cfg score now rest _ name hnotin]
        rw [show (processMetric cfg score now st (name, value)).history name
            = evictWindow cfg now (st.history name ++ [⟨now, value⟩])
          from processMetric_history_self]
        exact evictWindow_fresh
      · exact ih _ htail (List.nodup_cons.mp hnodup).2

end Detector

/-- C6 counterexample: the claim quantifies over every per-metric history
window, but `detect_anomalies` evicts stale samples only for the metrics
present in the current call.  With a one-day retention, a history holding a
sample of metric `a` at time 0 and a call at time 2 observing only metric `b`,
the window of `a` still holds the time-0 sample, which is two days old. -/
theorem detector_stale_window_counterexample :
    ((⟨0, 1⟩ : Detector.DataPoint) ∈ (Detector.detect_anomalies ⟨1/2, 1, 100⟩
        (fun _ _ => 0) 2
        (fun n => if n = "a" then [⟨0, 1⟩] else [])
        [("b", 5)]).history "a")
    ∧ ¬((2 : ℚ) - (1 : ℚ) < (⟨0, 1⟩ : Detector.DataPoint).timestamp) := by
  constructor
  · have h : (Detector.detect_anomalies ⟨1/2, 1, 100⟩ (fun _ _ => 0) 2
        (fun n => if n = "a" then [⟨0, 1⟩] else [])
        [("b", 5)]).history "a"
        = [(⟨0, 1⟩ : Detector.DataPoint)] := by
      show (Detector.processMetric ⟨1/2, 1, 100⟩ (fun _ _ => 0) 2
        ⟨fun n => if n = "a" then [⟨0, 1⟩] else [], []⟩ ("b", 5)).history "a"
        = [(⟨0, 1⟩ : Detector.DataPoint)]
      rw [Detector.processMetric_history_other "a" (by decide)]
      rfl
    rw [h]
    exact List.mem_singleton.mpr rfl
  · norm_num

/-- C6 (amended): after a call to `detect_anomalies`, the window of every
metric observed in that call holds only samples strictly newer than the
retention cutoff, and when the observation's window comes out empty (and at
least one data point is required) no anomaly is reported for the metric and no
fault is raised; windows of metrics absent from the call are not pruned. -/
theorem detector_updated_window_fresh (cfg : Detector.Config)
    (score : List ℚ → ℚ → ℚ) (now : ℚ)
    (history : String → List Detector.DataPoint)
    (metrics : List (String × ℚ)) (name : String) (value : ℚ)
    (hmem : (name, value) ∈ metrics)
    (hnodup : (metrics.map Prod.fst).Nodup) :
    (∀ p ∈ (Detector.detect_anomalies cfg score now history metrics).history
        name, now - cfg.training_period_days < p.timestamp)
    ∧ (0 < cfg.minimum_datapoints →
        Detector.evictWindow cfg now (history name ++ [⟨now, value⟩]) = [] →
        ∀ a ∈ (Detector.detect_anomalies cfg score now history
            metrics).anomalies, a.metric ≠ name) := by
  constructor
  · exact Detector.foldl_history_fresh cfg score now metrics ⟨history, []⟩
      name value hmem hnodup
  · intro hpos hempty
    refine Detector.foldl_no_anomaly_short_window cfg score now metrics
      ⟨history, []⟩ name value hmem hnodup ?_ (by intro a ha; cases ha)
    rw [show (⟨history, []⟩ : Detector.DetectState).history name
        = history name from rfl, hempty]
    exact hpos

/-- C6 amended witness: metric `a` observed at time 2 with a stale time-0
sample in its history — the resulting window holds only fresh samples. -/
theorem detector_updated_window_fresh_witness :
    ((("a", (5 : ℚ)) ∈ [("a", (5 : ℚ))])
    ∧ (([("a", (5 : ℚ))].map Prod.fst).Nodup))
    ∧ (∀ p ∈ (Detector.detect_anomalies ⟨1/2, 1, 3⟩ (fun _ _ => 0) 2
        (fun n => if n = "a" then [⟨0, 1⟩] else [])
        [("a", 5)]).history "a", (2 : ℚ) - 1 < p.timestamp) :=
  ⟨⟨by decide, by decide⟩,
   (detector_updated_window_fresh ⟨1/2, 1, 3⟩ (fun _ _ => 0) 2
     (fun n => if n = "a" then [⟨0, 1⟩] else [])
     [("a", 5)] "a" 5 (by decide) (by decide)).1⟩

/-- C7: an observation checked against its window is flagged exactly when the
model-assigned score falls below minus the configured threshold (the outlier
score exceeds the threshold), in which case the anomaly produced carries a
severity — one of low/medium/high/critical by type — quantized from the
absolute score, which for a fixed threshold grows exactly with how far the
score exceeds it; severity rank and confidence are monotone in the absolute
score, and confidence never exceeds 99.9. -/
theorem anomaly_score_flagging (cfg : Detector.Config)
    (score : List ℚ → ℚ → ℚ) (window : List Detector.DataPoint)
    (name : String) (v s s' : ℚ) :
    (((Detector.check_metric_anomaly cfg score window name v).isSome = true)
      ↔ score (window.map (fun p => p.value)) v < -cfg.anomaly_threshold)
    ∧ (score (window.map (fun p => p.value)) v < -cfg.anomaly_threshold →
        Detector.check_metric_anomaly cfg score window name v
          = some ⟨name, v,
              Detector.calculate_severity
                (score (window.map (fun p => p.value)) v),
              Detector.calculate_confidence
                (score (window.map (fun p => p.value)) v)⟩)
    ∧ (|s| ≤ |s'| → (Detector.calculate_severity s).rank
        ≤ (Detector.calculate_severity s').rank)
    ∧ (|s| ≤ |s'| →
        Detector.calculate_confidence s ≤ Detector.calculate_confidence s')
    ∧ (Detector.calculate_confidence s ≤ 999/10) := by
  refine ⟨?_, ?_, ?_, ?_, ?_⟩
  · unfold Detector.check_metric_anomaly
    split
    next h => simpa using h
    next h => simpa using h
  · intro h
    unfold Detector.check_metric_anomaly
    rw [if_pos h]
  · intro h
    unfold Detector.calculate_severity
    split_ifs <;> simp [Monitoring.Severity.rank] <;> linarith
  · intro h
    unfold Detector.calculate_confidence
    exact min_le_min (mul_le_mul_of_nonneg_right h (by norm_num)) le_rfl
  · exact min_le_right _ _

/-- C7 witness: a score of −1 against threshold 0.5 is flagged; severity rank
and confidence are monotone from score −1/2 to −1, and confidence stays below
99.9. -/
theorem anomaly_score_flagging_witness :
    ((Detector.check_metric_anomaly ⟨1/2, 1, 3⟩ (fun _ _ => -1) [] "m" 7).isSome
      = true)
    ∧ (|(1/2 : ℚ)| ≤ |(1 : ℚ)|)
    ∧ ((Detector.calculate_severity (1/2 : ℚ)).rank
        ≤ (Detector.calculate_severity (1 : ℚ)).rank)
    ∧ (Detector.calculate_confidence (1/2 : ℚ)
        ≤ Detector.calculate_confidence (1 : ℚ))
    ∧ (Detector.calculate_confidence (1/2 : ℚ) ≤ 999/10) :=
  ⟨(anomaly_score_flagging ⟨1/2, 1, 3⟩ (fun _ _ => -1) [] "m" 7 (1/2)
      1).1.mpr (by norm_num),
   by rw [abs_of_nonneg (by norm_num : (0:ℚ) ≤ 1/2),
        abs_of_nonneg (by norm_num : (0:ℚ) ≤ 1)]
      norm_num,
   (anomaly_score_flagging ⟨1/2, 1, 3⟩ (fun _ _ => -1) [] "m" 7 (1/2)
      1).2.2.1 (by
        rw [abs_of_nonneg (by norm_num : (0:ℚ) ≤ 1/2),
          abs_of_nonneg (by norm_num : (0:ℚ) ≤ 1)]
        norm_num),
   (anomaly_score_flagging ⟨1/2, 1, 3⟩ (fun _ _ => -1) [] "m" 7 (1/2)
      1).2.2.2.1 (by
        rw [abs_of_nonneg (by norm_num : (0:ℚ) ≤ 1/2),
          abs_of_nonneg (by norm_num : (0:ℚ) ≤ 1)]
        norm_num),
   (anomaly_score_flagging ⟨1/2, 1, 3⟩ (fun _ _ => -1) [] "m" 7 (1/2)
      1).2.2.2.2⟩

namespace AlertMgr

/-- AlertManager configuration: `alert_cooldown` in seconds and the
`minimum_severity` gate. -/
structure Config where
  alert_cooldown : ℚ
  minimum_severity : Monitoring.Severity
deriving Repr

/-- An alert record as built by `_create_alert` (the id and description carry
no gating logic and are omitted); `timestamp` is in seconds. -/
structure Alert where
  metric : String
  value : ℚ
  severity : Monitoring.Severity
  confidence : ℚ
  timestamp : ℚ
deriving DecidableEq, Repr

/-- Embeds `AlertManager._should_alert`: false when any alert for the same
metric in the history is newer than `alert_cooldown` seconds, otherwise true
exactly when the anomaly's severity rank reaches the configured minimum
severity's rank. -/
def should_alert (cfg : Config) (now : ℚ) (history : List Alert)
    (a : Detector.Anomaly) : Bool :=
  if (history.filter (fun al =>
      al.metric = a.metric ∧ now - al.timestamp < cfg.alert_cooldown)).isEmpty
  then
    decide (Monitoring.Severity.rank cfg.minimum_severity
      ≤ Monitoring.Severity.rank a.severity)
  else false

/-- Embeds `AlertManager._create_alert`: copies the anomaly's fields and stamps
the current time. -/
def create_alert (now : ℚ) (a : Detector.Anomaly) : Alert :=
  ⟨a.metric, a.current_value, a.severity, a.confidence, now⟩

/-- State threaded through `process_anomalies`: the manager's `alert_history`
and the alerts dispatched so far in this call. -/
structure AlertState where
  alert_history : List Alert
  sent : List Alert
deriving DecidableEq, Repr

/-- One iteration of the `process_anomalies` loop: when `_should_alert`
approves, the alert is created, dispatched and appended to the history;
otherwise nothing happens. -/
def process_one (cfg : Config) (now : ℚ) (st : AlertState)
    (a : Detector.Anomaly) : AlertState :=
  if should_alert cfg now st.alert_history a then
    ⟨st.alert_history ++ [create_alert now a], st.sent ++ [create_alert now a]⟩
  else st

/-- Embeds `AlertManager.process_anomalies`: folds the loop over the batch of
anomalies, starting from the current history with nothing sent. -/
def process_anomalies (cfg : Config) (now : ℚ) (history : List Alert)
    (anomalies : List Detector.Anomaly) : AlertState :=
  anomalies.foldl (process_one cfg now) ⟨history, []⟩

end AlertMgr

/-- C10: `process_anomalies` folds the gating step over the batch; at each
step, the gate passes exactly when no alert for the same metric in the current
history is newer than the cooldown and the anomaly's severity reaches the
configured minimum; when it passes, the created alert is both dispatched and
recorded, and when it fails the anomaly is dropped silently — state entirely
unchanged. -/
theorem alert_gating (cfg : AlertMgr.Config) (now : ℚ)
    (history : List AlertMgr.Alert) (anomalies : List Detector.Anomaly)
    (st : AlertMgr.AlertState) (a : Detector.Anomaly) :
    (AlertMgr.process_anomalies cfg now history anomalies
      = anomalies.foldl (AlertMgr.process_one cfg now) ⟨history, []⟩)
    ∧ (AlertMgr.should_alert cfg now st.alert_history a = true
      ↔ ((∀ al ∈ st.alert_history, al.metric = a.metric →
            cfg.alert_cooldown ≤ now - al.timestamp)
        ∧ Monitoring.Severity.rank cfg.minimum_severity
            ≤ Monitoring.Severity.rank a.severity))
    ∧ (AlertMgr.should_alert cfg now st.alert_history a = true →
        AlertMgr.process_one cfg now st a
          = ⟨st.alert_history ++ [AlertMgr.create_alert now a],
             st.sent ++ [AlertMgr.create_alert now a]⟩)
    ∧ (AlertMgr.should_alert cfg now st.alert_history a = false →
        AlertMgr.process_one cfg now st a = st) := by
  refine ⟨rfl, ?_, ?_, ?_⟩
  · unfold AlertMgr.should_alert
    split
    next hemp =>
      simp only [List.isEmpty_iff, List.filter_eq_nil_iff] at hemp
      simp only [decide_eq_true_eq]
      constructor
      · intro hr
        refine ⟨?_, hr⟩
        intro al hal hm
        have := hemp al hal
        simp only [decide_eq_true_eq, not_and] at this
        exact not_lt.mp (this hm)
      · exact fun h => h.2
    next hemp =>
      simp only [List.isEmpty_iff, List.filter_eq_nil_iff] at hemp
      push_neg at hemp
      obtain ⟨al, hal, hp⟩ := hemp
      simp only [decide_eq_true_eq] at hp
      constructor
      · intro h
        cases h
      · intro h
        exact absurd (not_lt.mpr (h.1 al hal hp.1)) (not_not.mpr hp.2)
  · intro h
    unfold AlertMgr.process_one
    rw [h]
    simp
  · intro h
    unfold AlertMgr.process_one
    rw [h]
    simp

/-- C10 witness: with a 60-second cooldown and minimum severity `medium`, an
anomaly for a metric alerted 30 seconds ago is dropped with the state
unchanged, while a fresh metric of sufficient severity is alerted, dispatched
and recorded. -/
theorem alert_gating_witness :
    (AlertMgr.should_alert ⟨60, .medium⟩ 130
        [⟨"cpu", 90, .high, 80, 100⟩] ⟨"cpu", 95, .high, 90⟩ = false)
    ∧ (AlertMgr.process_one ⟨60, .medium⟩ 130
        ⟨[⟨"cpu", 90, .high, 80, 100⟩], []⟩ ⟨"cpu", 95, .high, 90⟩
      = ⟨[⟨"cpu", 90, .high, 80, 100⟩], []⟩)
    ∧ (AlertMgr.should_alert ⟨60, .medium⟩ 130
        [⟨"cpu", 90, .high, 80, 100⟩] ⟨"mem", 95, .high, 90⟩ = true)
    ∧ (AlertMgr.process_one ⟨60, .medium⟩ 130
        ⟨[⟨"cpu", 90, .high, 80, 100⟩], []⟩ ⟨"mem", 95, .high, 90⟩
      = ⟨[⟨"cpu", 90, .high, 80, 100⟩,
          AlertMgr.create_alert 130 ⟨"mem", 95, .high, 90⟩],
         [AlertMgr.create_alert 130 ⟨"mem", 95, .high, 90⟩]⟩) := by
  have hfalse : AlertMgr.should_alert ⟨60, .medium⟩ 130
      [⟨"cpu", 90, .high, 80, 100⟩] ⟨"cpu", 95, .high, 90⟩ = false := by
    unfold AlertMgr.should_alert
    rw [if_neg]
    intro hemp
    rw [List.isEmpty_iff, List.filter_eq_nil_iff] at hemp
    have := hemp ⟨"cpu", 90, .high, 80, 100⟩ (List.mem_singleton.mpr rfl)
    simp only [decide_eq_true_eq, not_and] at this
    exact this (by trivial) (by norm_num)
  have htrue : AlertMgr.should_alert ⟨60, .medium⟩ 130
      [⟨"cpu", 90, .high, 80, 100⟩] ⟨"mem", 95, .high, 90⟩ = true :=
    (alert_gating ⟨60, .medium⟩ 130 [] []
      ⟨[⟨"cpu", 90, .high, 80, 100⟩], []⟩ ⟨"mem", 95, .high, 90⟩).2.1.mpr
      ⟨(by
          intro al hal hm
          cases List.mem_singleton.mp hal
          exact absurd hm (by decide)),
       (by decide)⟩
  refine ⟨hfalse, ?_, htrue, ?_⟩
  · exact (alert_gating ⟨60, .medium⟩ 130 [] []
      ⟨[⟨"cpu", 90, .high, 80, 100⟩], []⟩ ⟨"cpu", 95, .high, 90⟩).2.2.2 hfalse
  · exact (alert_gating ⟨60, .medium⟩ 130 [] []
      ⟨[⟨"cpu", 90, .high, 80, 100⟩], []⟩ ⟨"mem", 95, .high, 90⟩).2.2.1 htrue

/-- C1: every metric comparison of the comparator — latency, throughput and
success rate in `_analyze_performance`, error rate in `_analyze_errors`, cpu
and memory in `_analyze_resources` — has `difference_percentage` equal to 0
when the baseline is 0 (no division fault: the embedding is total) and to
`(canary - baseline) / baseline * 100` otherwise. -/
theorem comparator_difference_percent_spec (t : Canary.ImpactThresholds)
    (th : Canary.Thresholds) (bp cp : Canary.PerfMetrics)
    (ber cer : ℚ) (br cr : Canary.ResourceMetrics) :
    ((Canary.analyze_performance t th bp cp).latency.difference_percentage
      = if bp.latency = 0 then 0
        else (cp.latency - bp.latency) / bp.latency * 100)
    ∧ ((Canary.analyze_performance t th bp cp).throughput.difference_percentage
      = if bp.throughput = 0 then 0
        else (cp.throughput - bp.throughput) / bp.throughput * 100)
    ∧ ((Canary.analyze_performance t th bp cp).success_rate.difference_percentage
      = if bp.success_rate = 0 then 0
        else (cp.success_rate - bp.success_rate) / bp.success_rate * 100)
    ∧ ((Canary.analyze_errors t th ber cer).error_rate.difference_percentage
      = if ber = 0 then 0 else (cer - ber) / ber * 100)
    ∧ ((Canary.analyze_resources t th br cr).cpu.difference_percentage
      = if br.cpu_usage = 0 then 0
        else (cr.cpu_usage - br.cpu_usage) / br.cpu_usage * 100)
    ∧ ((Canary.analyze_resources t th br cr).memory.difference_percentage
      = if br.memory_usage = 0 then 0
        else (cr.memory_usage - br.memory_usage) / br.memory_usage * 100) :=
  ⟨rfl, rfl, rfl, rfl, rfl, rfl⟩

/-- C4: the `promote` field of the decision is true exactly when the overall
score is at least the configured promotion threshold. -/
theorem promote_iff_score_ge_threshold (w : Canary.Weights) (pt : ℚ)
    (pa : Canary.PerformanceAnalysis) (ea : Canary.ErrorAnalysis)
    (ra : Canary.ResourceAnalysis) (ua : List Canary.MetricAnalysis) :
    (Canary.make_promotion_decision w pt pa ea ra ua).promote = true
      ↔ pt ≤ (Canary.make_promotion_decision w pt pa ea ra ua).overall_score := by
  simp [Canary.make_promotion_decision, ge_iff_le]
